import Mathlib

/-!
# Photo editor shell (`editor/photo_editor.cpp`)

A shallow embedding of `Editor::PhotoEditor`: the widget that owns a content
canvas, a controls bar and a colour picker, and reacts to resize, mode and
control events.  Every subscription body of the constructor is one handler
function on an explicit editor state; `PhotoEditor::save` is `save`.

C++ `int` values are mathematical integers here (signed overflow is undefined
in C++, and none of the properties below is stated near the limits of `int`).
-/

namespace Editor

/-! ## Toolkit value types -/

/-- Modelled from the spec: the toolkit type `QPoint` is not part of the
source file; a point is a pair of integer coordinates, and `QPoint()` is the
origin. -/
structure QPoint where
  x : Int
  y : Int
  deriving DecidableEq, Repr

/-- Modelled from the spec: the toolkit type `QSize` is not part of the
source file; a size is an integer width and height. -/
structure QSize where
  width : Int
  height : Int
  deriving DecidableEq, Repr

/-- Modelled from the spec: `QSize::isEmpty` is not part of the source file;
a size is empty when its width or its height is not positive. -/
def QSize.isEmpty (s : QSize) : Bool :=
  decide (s.width < 1) || decide (s.height < 1)

/-- Modelled from the spec: the toolkit type `QMargins` (`style::margins`) is
not part of the source file; four integer margins, in the order left, top,
right, bottom. -/
structure QMargins where
  left : Int
  top : Int
  right : Int
  bottom : Int
  deriving DecidableEq, Repr

/-- Modelled from the spec: the toolkit type `QRect` is not part of the source
file; a rectangle keeps its left/top corner and its inclusive right/bottom
corner, so that a rectangle of width `w` at `x` has right edge `x + w - 1`. -/
structure QRect where
  x1 : Int
  y1 : Int
  x2 : Int
  y2 : Int
  deriving DecidableEq, Repr

namespace QRect

/-- Modelled from the spec: the constructor `QRect(topLeft, size)` is not
part of the source file; the rectangle with the given top-left corner and
size. -/
def ofPointSize (p : QPoint) (s : QSize) : QRect :=
  { x1 := p.x, y1 := p.y, x2 := p.x + s.width - 1, y2 := p.y + s.height - 1 }

/-- Modelled from the spec: the constructor `QRect(left, top, width, height)`
is not part of the source file; the rectangle at (left, top) with the given
width and height. -/
def ofXYWH (left top width height : Int) : QRect :=
  { x1 := left, y1 := top, x2 := left + width - 1, y2 := top + height - 1 }

/-- Modelled from the spec: `QRect::x()` is not part of the source file; the
left edge. -/
def x (r : QRect) : Int := r.x1

/-- Modelled from the spec: `QRect::y()` is not part of the source file; the
top edge. -/
def y (r : QRect) : Int := r.y1

/-- Modelled from the spec: `QRect::width()` is not part of the source file;
the number of columns between the left and the right edge, both included. -/
def width (r : QRect) : Int := r.x2 - r.x1 + 1

/-- Modelled from the spec: `QRect::height()` is not part of the source file;
the number of rows between the top and the bottom edge, both included. -/
def height (r : QRect) : Int := r.y2 - r.y1 + 1

/-- Modelled from the spec: `QRect::bottom()` is not part of the source file;
the last row of the rectangle. -/
def bottom (r : QRect) : Int := r.y2

/-- Modelled from the spec: the operator `rect - margins` is not part of the
source file; the rectangle with each edge moved inwards by the margin of that
edge. -/
def subMargins (r : QRect) (m : QMargins) : QRect :=
  { x1 := r.x1 + m.left, y1 := r.y1 + m.top,
    x2 := r.x2 - m.right, y2 := r.y2 - m.bottom }

end QRect

/-! ## Editor data -/

/-- Modelled from the spec: the declaration of `PhotoModifications` is not
part of the source file; it has an integer rotation angle, a flipped flag and
further fields owned by the collaborators, kept here as one value of an
arbitrary type `Extra` that the editor never inspects. -/
structure PhotoModifications (Extra : Type) where
  angle : Int
  flipped : Bool
  extra : Extra
  deriving DecidableEq, Repr

/-- Modelled from the spec: the declaration of `PhotoEditorMode::Mode` is not
part of the source file; the interaction phase is Transform or Paint. -/
inductive Mode where
  | Transform
  | Paint
  deriving DecidableEq, Repr

/-- Modelled from the spec: the declaration of `PhotoEditorMode::Action` is
not part of the source file; the one-shot action tag is None, Save or
Discard. -/
inductive Action where
  | None
  | Save
  | Discard
  deriving DecidableEq, Repr

/-- Modelled from the spec: the declaration of `PhotoEditorMode` is not part
of the source file; a mode value is a phase with an action tag. -/
structure PhotoEditorMode where
  mode : Mode
  action : Action
  deriving DecidableEq, Repr

/-- Constants and library behaviour that the source file refers to and does
not define: the two style constants `st::photoEditorControlsHeight` and
`st::photoEditorColorPickerTopSkip`, and whether assigning to the reactive
mode variable a value equal to its current one is skipped (`true`) or is
delivered to the subscriber like any other assignment (`false`). -/
structure Env where
  photoEditorControlsHeight : Int
  photoEditorColorPickerTopSkip : Int
  skipEqualMode : Bool
  deriving DecidableEq, Repr

/-- One call made by the editor on a collaborator, or one firing of the
completion event; the editor state keeps them in the order they happen. -/
inductive Call (Extra Brush : Type) where
  | contentSetGeometry (rect : QRect)
  | controlsSetGeometry (rect : QRect)
  | colorPickerMoveLine (point : QPoint)
  | contentApplyMode (mode : PhotoEditorMode)
  | controlsApplyMode (mode : PhotoEditorMode)
  | colorPickerSetVisible (visible : Bool)
  | contentApplyModifications (modifications : PhotoModifications Extra)
  | contentApplyBrush (brush : Brush)
  | contentSave (modifications : PhotoModifications Extra)
  | doneFire (modifications : PhotoModifications Extra)
  deriving DecidableEq, Repr

/-- What the content canvas has been given by the editor: its geometry, the
last mode and brush applied to it (`none` until the first call), the last
modification set given to it (at construction or by `applyModifications`),
and every modification set passed to its `save`, oldest first. -/
structure PhotoEditorContent (Extra Brush : Type) where
  geometry : Option QRect
  mode : Option PhotoEditorMode
  modifications : Option (PhotoModifications Extra)
  brush : Option Brush
  saved : List (PhotoModifications Extra)
  deriving DecidableEq, Repr

/-- What the controls bar has been given by the editor. -/
structure PhotoEditorControls where
  geometry : Option QRect
  mode : Option PhotoEditorMode
  deriving DecidableEq, Repr

/-- What the colour picker has been given by the editor: the position of its
line and its visibility (`none` until the first call). -/
structure ColorPicker where
  line : Option QPoint
  visible : Option Bool
  deriving DecidableEq, Repr

/-- The editor: the members `_modifications` and `_mode`, the three
collaborators, the values fired on `_done` (oldest first) and the log of
calls. -/
structure PhotoEditor (Extra Brush : Type) where
  modifications : PhotoModifications Extra
  mode : PhotoEditorMode
  content : PhotoEditorContent Extra Brush
  controls : PhotoEditorControls
  colorPicker : ColorPicker
  done : List (PhotoModifications Extra)
  calls : List (Call Extra Brush)
  deriving DecidableEq, Repr

/-- The events the editor reacts to: the five requests of the controls bar
(a rotate request carries an angle), a brush value of the colour picker, a
size value of the widget, and a call of `save`. -/
inductive Event (Brush : Type) where
  | rotate (angle : Int)
  | flip
  | paintMode
  | done
  | cancel
  | brush (value : Brush)
  | resize (size : QSize)
  | save
  deriving DecidableEq, Repr

variable {Extra Brush : Type}

/-! ## Collaborator calls -/

/-- The call `_content->setGeometry(rect)`. -/
def contentSetGeometry (rect : QRect) (s : PhotoEditor Extra Brush) :
    PhotoEditor Extra Brush :=
  { s with
    content := { s.content with geometry := some rect }
    calls := s.calls ++ [Call.contentSetGeometry rect] }

/-- The call `_controls->setGeometry(rect)`. -/
def controlsSetGeometry (rect : QRect) (s : PhotoEditor Extra Brush) :
    PhotoEditor Extra Brush :=
  { s with
    controls := { s.controls with geometry := some rect }
    calls := s.calls ++ [Call.controlsSetGeometry rect] }

/-- The call `_colorPicker->moveLine(point)`. -/
def colorPickerMoveLine (point : QPoint) (s : PhotoEditor Extra Brush) :
    PhotoEditor Extra Brush :=
  { s with
    colorPicker := { s.colorPicker with line := some point }
    calls := s.calls ++ [Call.colorPickerMoveLine point] }

/-- The call `_content->applyMode(mode)`. -/
def contentApplyMode (mode : PhotoEditorMode) (s : PhotoEditor Extra Brush) :
    PhotoEditor Extra Brush :=
  { s with
    content := { s.content with mode := some mode }
    calls := s.calls ++ [Call.contentApplyMode mode] }

/-- The call `_controls->applyMode(mode)`. -/
def controlsApplyMode (mode : PhotoEditorMode) (s : PhotoEditor Extra Brush) :
    PhotoEditor Extra Brush :=
  { s with
    controls := { s.controls with mode := some mode }
    calls := s.calls ++ [Call.controlsApplyMode mode] }

/-- The call `_colorPicker->setVisible(visible)`. -/
def colorPickerSetVisible (visible : Bool) (s : PhotoEditor Extra Brush) :
    PhotoEditor Extra Brush :=
  { s with
    colorPicker := { s.colorPicker with visible := some visible }
    calls := s.calls ++ [Call.colorPickerSetVisible visible] }

/-- Modelled from the spec: `PhotoEditorContent::applyModifications` is not
part of the source file; the canvas is passed the set by value, so the call
records the set it was given and leaves the members of the editor as they
are. -/
def contentApplyModifications (modifications : PhotoModifications Extra)
    (s : PhotoEditor Extra Brush) : PhotoEditor Extra Brush :=
  { s with
    content := { s.content with modifications := some modifications }
    calls := s.calls ++ [Call.contentApplyModifications modifications] }

/-- The call `_content->applyBrush(brush)`. -/
def contentApplyBrush (brush : Brush) (s : PhotoEditor Extra Brush) :
    PhotoEditor Extra Brush :=
  { s with
    content := { s.content with brush := some brush }
    calls := s.calls ++ [Call.contentApplyBrush brush] }

/-- Modelled from the spec: `PhotoEditorContent::save` is not part of the
source file; the canvas is handed the set read-only (collaborators receive
copies, never shared mutable references), so the call records the set it was
given and leaves the members of the editor as they are. -/
def contentSave (modifications : PhotoModifications Extra)
    (s : PhotoEditor Extra Brush) : PhotoEditor Extra Brush :=
  { s with
    content := { s.content with saved := s.content.saved ++ [modifications] }
    calls := s.calls ++ [Call.contentSave modifications] }

/-- The firing `_done.fire_copy(modifications)`. -/
def doneFire (modifications : PhotoModifications Extra)
    (s : PhotoEditor Extra Brush) : PhotoEditor Extra Brush :=
  { s with
    done := s.done ++ [modifications]
    calls := s.calls ++ [Call.doneFire modifications] }

/-! ## Handlers -/

/-- The body of the `sizeValue()` subscription. -/
def sizeHandler (env : Env) (size : QSize) (s : PhotoEditor Extra Brush) :
    PhotoEditor Extra Brush :=
  if size.isEmpty then
    s
  else
    let geometry := QRect.ofPointSize { x := 0, y := 0 } size
    let contentRect := geometry.subMargins
      { left := 0, top := 0, right := 0, bottom := env.photoEditorControlsHeight }
    let s1 := contentSetGeometry contentRect s
    let controlsRect := geometry.subMargins
      { left := 0, top := contentRect.height, right := 0, bottom := 0 }
    let s2 := controlsSetGeometry controlsRect s1
    colorPickerMoveLine
      { x := controlsRect.x + Int.tdiv controlsRect.width 2,
        y := controlsRect.y + env.photoEditorColorPickerTopSkip }
      s2

/-- The body of the `_mode.value()` subscription. -/
def modeHandler (mode : PhotoEditorMode) (s : PhotoEditor Extra Brush) :
    PhotoEditor Extra Brush :=
  let s1 := contentApplyMode mode s
  let s2 := controlsApplyMode mode s1
  colorPickerSetVisible (decide (mode.mode = Mode.Paint)) s2

/-- Modelled from the spec: assignment to the reactive variable `_mode` is
not part of the source file; the new value is stored and delivered
synchronously to the one subscriber, the mode handler.  When the environment
says that equal values are skipped, assigning the current value does
nothing. -/
def assignMode (env : Env) (value : PhotoEditorMode)
    (s : PhotoEditor Extra Brush) : PhotoEditor Extra Brush :=
  if env.skipEqualMode && decide (s.mode = value) then
    s
  else
    modeHandler value { s with mode := value }

/-- The body of the `rotateRequests()` subscription; the angle carried by the
request is not used. -/
def rotateHandler (_angle : Int) (s : PhotoEditor Extra Brush) :
    PhotoEditor Extra Brush :=
  let m1 := { s.modifications with angle := s.modifications.angle + 90 }
  let m2 := if m1.angle ≥ 360 then { m1 with angle := m1.angle - 360 } else m1
  contentApplyModifications m2 { s with modifications := m2 }

/-- The body of the `flipRequests()` subscription. -/
def flipHandler (s : PhotoEditor Extra Brush) : PhotoEditor Extra Brush :=
  let m := { s.modifications with flipped := !s.modifications.flipped }
  contentApplyModifications m { s with modifications := m }

/-- The body of the `paintModeRequests()` subscription. -/
def paintModeHandler (env : Env) (s : PhotoEditor Extra Brush) :
    PhotoEditor Extra Brush :=
  assignMode env { mode := Mode.Paint, action := Action.None } s

/-- The body of the `doneRequests()` subscription. -/
def doneHandler (env : Env) (s : PhotoEditor Extra Brush) :
    PhotoEditor Extra Brush :=
  if s.mode.mode = Mode.Paint then
    assignMode env { mode := Mode.Transform, action := Action.Save } s
  else
    s

/-- The body of the `cancelRequests()` subscription. -/
def cancelHandler (env : Env) (s : PhotoEditor Extra Brush) :
    PhotoEditor Extra Brush :=
  if s.mode.mode = Mode.Paint then
    assignMode env { mode := Mode.Transform, action := Action.Discard } s
  else
    s

/-- The body of the `brushValue()` subscription. -/
def brushHandler (brush : Brush) (s : PhotoEditor Extra Brush) :
    PhotoEditor Extra Brush :=
  contentApplyBrush brush s

/-- The method `PhotoEditor::save`. -/
def save (s : PhotoEditor Extra Brush) : PhotoEditor Extra Brush :=
  let s1 := contentSave s.modifications s
  doneFire s1.modifications s1

/-- The editor after member initialisation and before any subscription has
run: the canvas was constructed with the initial modification set, nothing
else has been given to a collaborator, nothing has been fired. -/
def initialMembers (modifications : PhotoModifications Extra)
    (initialMode : PhotoEditorMode) : PhotoEditor Extra Brush :=
  { modifications := modifications
    mode := initialMode
    content :=
      { geometry := none, mode := none, modifications := some modifications,
        brush := none, saved := [] }
    controls := { geometry := none, mode := none }
    colorPicker := { line := none, visible := none }
    done := []
    calls := [] }

/-- The constructor `PhotoEditor::PhotoEditor`.  The initial value of `_mode`
comes from the class definition, which is not part of the source file, so it
is an argument; the mode subscription is delivered that value.  Whether the
size and brush subscriptions are delivered a current value on subscription is
not visible in the source file either: `some v` says the subscription runs
its handler on `v` during construction, `none` that it does not. -/
def construct (env : Env) (modifications : PhotoModifications Extra)
    (initialMode : PhotoEditorMode) (initialSize : Option QSize)
    (initialBrush : Option Brush) : PhotoEditor Extra Brush :=
  let s0 : PhotoEditor Extra Brush := initialMembers modifications initialMode
  let s1 := match initialSize with
    | some size => sizeHandler env size s0
    | none => s0
  let s2 := modeHandler s1.mode s1
  match initialBrush with
  | some brush => brushHandler brush s2
  | none => s2

/-- One event delivered to the editor. -/
def step (env : Env) (s : PhotoEditor Extra Brush) :
    Event Brush → PhotoEditor Extra Brush
  | Event.rotate angle => rotateHandler angle s
  | Event.flip => flipHandler s
  | Event.paintMode => paintModeHandler env s
  | Event.done => doneHandler env s
  | Event.cancel => cancelHandler env s
  | Event.brush value => brushHandler value s
  | Event.resize size => sizeHandler env size s
  | Event.save => save s

/-- A finite sequence of events delivered in order. -/
def run (env : Env) (s : PhotoEditor Extra Brush) (events : List (Event Brush)) :
    PhotoEditor Extra Brush :=
  events.foldl (step env) s

/-- The number of rotate requests in a sequence of events. -/
def rotateCount : List (Event Brush) → Nat
  | [] => 0
  | Event.rotate _ :: rest => rotateCount rest + 1
  | _ :: rest => rotateCount rest

/-- The angle is one of 0, 90, 180, 270. -/
def angleNormalized (angle : Int) : Prop :=
  angle = 0 ∨ angle = 90 ∨ angle = 180 ∨ angle = 270

instance (angle : Int) : Decidable (angleNormalized angle) := by
  unfold angleNormalized; infer_instance

/-- The angle lies in `[0, 360)`. -/
def angleInRange (angle : Int) : Prop := 0 ≤ angle ∧ angle < 360

instance (angle : Int) : Decidable (angleInRange angle) := by
  unfold angleInRange; infer_instance

/-- The environment used in the worked examples: a controls bar 60 high,
the colour-picker line 20 below its top, every mode assignment delivered. -/
def exampleEnv : Env :=
  { photoEditorControlsHeight := 60, photoEditorColorPickerTopSkip := 20,
    skipEqualMode := false }

/-- The editor used in the worked examples: constructed over the example
environment with angle 0, not flipped, in Transform mode, size 800 by 600. -/
def exampleEditor : PhotoEditor Unit Unit :=
  construct exampleEnv { angle := 0, flipped := false, extra := () }
    { mode := Mode.Transform, action := Action.None }
    (some { width := 800, height := 600 }) (some ())

/-- The colour picker has been told to be visible exactly when the stored
mode is Paint. -/
def pickerFollowsMode (s : PhotoEditor Extra Brush) : Prop :=
  s.colorPicker.visible = some (decide (s.mode.mode = Mode.Paint))

/-! ## Shared lemmas -/

theorem run_nil (env : Env) (s : PhotoEditor Extra Brush) : run env s [] = s := rfl

theorem run_cons (env : Env) (s : PhotoEditor Extra Brush) (e : Event Brush)
    (es : List (Event Brush)) : run env s (e :: es) = run env (step env s e) es := rfl

theorem assignMode_modifications (env : Env) (value : PhotoEditorMode)
    (s : PhotoEditor Extra Brush) :
    (assignMode env value s).modifications = s.modifications := by
  unfold assignMode
  split <;> rfl

theorem assignMode_mode (env : Env) (value : PhotoEditorMode)
    (s : PhotoEditor Extra Brush) : (assignMode env value s).mode = value := by
  unfold assignMode
  split
  · rename_i h
    simp only [Bool.and_eq_true, decide_eq_true_eq] at h
    exact h.2
  · rfl

theorem sizeHandler_modifications (env : Env) (size : QSize)
    (s : PhotoEditor Extra Brush) :
    (sizeHandler env size s).modifications = s.modifications := by
  unfold sizeHandler
  split <;> rfl

theorem sizeHandler_mode (env : Env) (size : QSize) (s : PhotoEditor Extra Brush) :
    (sizeHandler env size s).mode = s.mode := by
  unfold sizeHandler
  split <;> rfl

theorem sizeHandler_visible (env : Env) (size : QSize) (s : PhotoEditor Extra Brush) :
    (sizeHandler env size s).colorPicker.visible = s.colorPicker.visible := by
  unfold sizeHandler
  split <;> rfl

/-- What one event does to the stored angle: a rotate request adds 90 and
takes 360 off once when the sum reaches 360; no other event changes it. -/
theorem step_angle (env : Env) (s : PhotoEditor Extra Brush) (e : Event Brush) :
    (step env s e).modifications.angle =
      match e with
      | Event.rotate _ =>
        if s.modifications.angle + 90 ≥ 360 then s.modifications.angle + 90 - 360
        else s.modifications.angle + 90
      | _ => s.modifications.angle := by
  cases e with
  | rotate angle =>
    simp only [step, rotateHandler, contentApplyModifications]
    split <;> rfl
  | flip => rfl
  | paintMode => simp only [step, paintModeHandler, assignMode_modifications]
  | done =>
    simp only [step, doneHandler]
    split
    · rw [assignMode_modifications]
    · rfl
  | cancel =>
    simp only [step, cancelHandler]
    split
    · rw [assignMode_modifications]
    · rfl
  | brush value => rfl
  | resize size => simp only [step, sizeHandler_modifications]
  | save => rfl

theorem assignMode_pickerFollowsMode (env : Env) (value : PhotoEditorMode)
    (s : PhotoEditor Extra Brush) (h : pickerFollowsMode s) :
    pickerFollowsMode (assignMode env value s) := by
  unfold assignMode
  split
  · exact h
  · rfl

theorem step_pickerFollowsMode (env : Env) (s : PhotoEditor Extra Brush)
    (e : Event Brush) (h : pickerFollowsMode s) : pickerFollowsMode (step env s e) := by
  cases e with
  | rotate angle => exact h
  | flip => exact h
  | paintMode => exact assignMode_pickerFollowsMode env _ s h
  | done =>
    simp only [step, doneHandler]
    split
    · exact assignMode_pickerFollowsMode env _ s h
    · exact h
  | cancel =>
    simp only [step, cancelHandler]
    split
    · exact assignMode_pickerFollowsMode env _ s h
    · exact h
  | brush value => exact h
  | resize size =>
    unfold pickerFollowsMode at *
    simp only [step, sizeHandler_visible, sizeHandler_mode]
    exact h
  | save => exact h

theorem run_pickerFollowsMode (env : Env) (events : List (Event Brush))
    (s : PhotoEditor Extra Brush) (h : pickerFollowsMode s) :
    pickerFollowsMode (run env s events) := by
  induction events generalizing s with
  | nil => exact h
  | cons e es ih => exact ih (step env s e) (step_pickerFollowsMode env s e h)

theorem construct_pickerFollowsMode (env : Env) (m : PhotoModifications Extra)
    (initialMode : PhotoEditorMode) (initialSize : Option QSize)
    (initialBrush : Option Brush) :
    pickerFollowsMode
      (construct env m initialMode initialSize initialBrush : PhotoEditor Extra Brush) := by
  unfold construct
  cases initialSize <;> cases initialBrush <;>
    simp [pickerFollowsMode, modeHandler, colorPickerSetVisible, controlsApplyMode,
      contentApplyMode, brushHandler, contentApplyBrush, sizeHandler_mode]

theorem construct_modifications (env : Env) (m : PhotoModifications Extra)
    (initialMode : PhotoEditorMode) (initialSize : Option QSize)
    (initialBrush : Option Brush) :
    (construct env m initialMode initialSize initialBrush :
      PhotoEditor Extra Brush).modifications = m := by
  unfold construct
  cases initialSize <;> cases initialBrush <;>
    simp [modeHandler, colorPickerSetVisible, controlsApplyMode, contentApplyMode,
      brushHandler, contentApplyBrush, sizeHandler_modifications, initialMembers]

theorem step_angle_in_range (env : Env) (s : PhotoEditor Extra Brush) (e : Event Brush)
    (h0 : 0 ≤ s.modifications.angle) (h1 : s.modifications.angle < 360) :
    0 ≤ (step env s e).modifications.angle ∧ (step env s e).modifications.angle < 360 := by
  rw [step_angle]
  cases e <;> simp only <;> first | exact ⟨h0, h1⟩ | (split <;> omega)

theorem step_angleNormalized (env : Env) (s : PhotoEditor Extra Brush) (e : Event Brush)
    (h : angleNormalized s.modifications.angle) :
    angleNormalized (step env s e).modifications.angle := by
  rw [step_angle]
  unfold angleNormalized at *
  cases e <;> simp only <;> first | exact h | (split <;> omega)

/-! ## Rotation -/

/-- C1: from a stored angle `a` with `0 ≤ a < 360`, after any finite sequence
of events that contains `n` rotate requests (whatever angle each request
carries, and whatever flip or other events are interleaved) the stored angle
is `(a + 90 * n) mod 360`, and it lies in `[0, 360)`. -/
theorem rotate_requests_angle (env : Env) (events : List (Event Brush))
    (s : PhotoEditor Extra Brush)
    (h0 : 0 ≤ s.modifications.angle) (h1 : s.modifications.angle < 360) :
    (run env s events).modifications.angle
        = (s.modifications.angle + 90 * (rotateCount events : Int)) % 360
      ∧ 0 ≤ (run env s events).modifications.angle
      ∧ (run env s events).modifications.angle < 360 := by
  induction events generalizing s with
  | nil =>
    simp only [run_nil, rotateCount]
    omega
  | cons e es ih =>
    have hr := step_angle_in_range env s e h0 h1
    have h := ih (step env s e) hr.1 hr.2
    have ha := step_angle env s e
    rw [run_cons]
    refine ⟨?_, h.2.1, h.2.2⟩
    rw [h.1]
    cases e <;> simp only [rotateCount] at ha ⊢ <;> rw [ha]
    split <;> push_cast <;> omega

/-- Witness for C1: the example editor (angle 0) after rotate, flip, rotate,
paint-mode, rotate has angle 270. -/
theorem rotate_requests_angle_witness :
    (run exampleEnv exampleEditor
        [Event.rotate 90, Event.flip, Event.rotate (-7), Event.paintMode,
          Event.rotate 0]).modifications.angle
        = (0 + 90 * ((3 : Nat) : Int)) % 360
      ∧ 0 ≤ (run exampleEnv exampleEditor
        [Event.rotate 90, Event.flip, Event.rotate (-7), Event.paintMode,
          Event.rotate 0]).modifications.angle
      ∧ (run exampleEnv exampleEditor
        [Event.rotate 90, Event.flip, Event.rotate (-7), Event.paintMode,
          Event.rotate 0]).modifications.angle < 360 :=
  rotate_requests_angle exampleEnv
    [Event.rotate 90, Event.flip, Event.rotate (-7), Event.paintMode, Event.rotate 0]
    exampleEditor (by decide) (by decide)

/-- C9: when the stored angle is one of 0, 90, 180, 270, it is again one of
them after any single event (rotate, flip, paint-mode, done, cancel, brush
change, resize, save) and after any finite sequence of such events. -/
theorem angle_stays_normalized (env : Env) (s : PhotoEditor Extra Brush)
    (h : angleNormalized s.modifications.angle) :
    (∀ e : Event Brush, angleNormalized (step env s e).modifications.angle)
      ∧ ∀ events : List (Event Brush),
          angleNormalized (run env s events).modifications.angle := by
  refine ⟨fun e => step_angleNormalized env s e h, fun events => ?_⟩
  induction events generalizing s with
  | nil => exact h
  | cons e es ih => exact ih (step env s e) (step_angleNormalized env s e h)

/-- Witness for C9: the example editor starts at angle 0. -/
theorem angle_stays_normalized_witness :
    angleNormalized exampleEditor.modifications.angle
      ∧ (∀ e : Event Unit, angleNormalized (step exampleEnv exampleEditor e).modifications.angle)
      ∧ ∀ events : List (Event Unit),
          angleNormalized (run exampleEnv exampleEditor events).modifications.angle :=
  ⟨by decide, angle_stays_normalized exampleEnv exampleEditor (by decide)⟩

/-- C10: the constructor stores the initial modification set as given, and
one rotate request takes 360 off at most once.  An editor constructed with
angle 630 has angle 360 after one rotate request, and one constructed with
angle -180 has angle -90: both are outside `[0, 360)`, and both are congruent
to the initial angle plus 90 modulo 360. -/
theorem rotate_does_not_establish_range (env : Env) (initialMode : PhotoEditorMode)
    (initialSize : Option QSize) (initialBrush : Option Brush) (k : Int)
    (flipped : Bool) (extra : Extra) :
    (∀ m : PhotoModifications Extra,
        (construct env m initialMode initialSize initialBrush :
          PhotoEditor Extra Brush).modifications = m)
      ∧ (step env (construct env { angle := 630, flipped := flipped, extra := extra }
            initialMode initialSize initialBrush : PhotoEditor Extra Brush)
          (Event.rotate k)).modifications.angle = 360
      ∧ ¬ angleInRange (step env
            (construct env { angle := 630, flipped := flipped, extra := extra }
              initialMode initialSize initialBrush : PhotoEditor Extra Brush)
            (Event.rotate k)).modifications.angle
      ∧ (step env (construct env { angle := 630, flipped := flipped, extra := extra }
            initialMode initialSize initialBrush : PhotoEditor Extra Brush)
          (Event.rotate k)).modifications.angle % 360 = (630 + 90) % 360
      ∧ (step env (construct env { angle := -180, flipped := flipped, extra := extra }
            initialMode initialSize initialBrush : PhotoEditor Extra Brush)
          (Event.rotate k)).modifications.angle = -90
      ∧ ¬ angleInRange (step env
            (construct env { angle := -180, flipped := flipped, extra := extra }
              initialMode initialSize initialBrush : PhotoEditor Extra Brush)
            (Event.rotate k)).modifications.angle
      ∧ (step env (construct env { angle := -180, flipped := flipped, extra := extra }
            initialMode initialSize initialBrush : PhotoEditor Extra Brush)
          (Event.rotate k)).modifications.angle % 360 = (-180 + 90) % 360 := by
  have h630 : (step env (construct env { angle := 630, flipped := flipped, extra := extra }
      initialMode initialSize initialBrush : PhotoEditor Extra Brush)
      (Event.rotate k)).modifications.angle = 360 := by
    rw [step_angle, construct_modifications]
    simp
  have h180 : (step env (construct env { angle := -180, flipped := flipped, extra := extra }
      initialMode initialSize initialBrush : PhotoEditor Extra Brush)
      (Event.rotate k)).modifications.angle = -90 := by
    rw [step_angle, construct_modifications]
    simp
  refine ⟨fun m => construct_modifications env m _ _ _, h630, ?_, ?_, h180, ?_, ?_⟩
  · rw [h630]; decide
  · rw [h630]; decide
  · rw [h180]; decide
  · rw [h180]; decide

/-! ## Flip -/

/-- C6: one flip request negates the flipped flag and leaves the angle as it
was; two consecutive flip requests give back the stored modification set, and
the set last applied to the content canvas is then the one stored before the
first flip. -/
theorem flip_twice_restores (env : Env) (s : PhotoEditor Extra Brush) :
    (step env s Event.flip).modifications.flipped = !s.modifications.flipped
      ∧ (step env s Event.flip).modifications.angle = s.modifications.angle
      ∧ (step env (step env s Event.flip) Event.flip).modifications.flipped
          = s.modifications.flipped
      ∧ (step env (step env s Event.flip) Event.flip).modifications.angle
          = s.modifications.angle
      ∧ (step env (step env s Event.flip) Event.flip).modifications = s.modifications
      ∧ (step env (step env s Event.flip) Event.flip).content.modifications
          = some s.modifications
      ∧ (step env (step env s Event.flip) Event.flip).calls
          = s.calls ++
            [Call.contentApplyModifications
                { s.modifications with flipped := !s.modifications.flipped },
              Call.contentApplyModifications s.modifications] := by
  simp [step, flipHandler, contentApplyModifications]

/-! ## Save -/

/-- C2: `save` passes the stored modification set to the save of the content
canvas and then fires the completion event once with that same set: the call
log grows by exactly these two entries in this order, the canvas has one more
saved set, the event has one more firing, and the stored modification set and
the mode are unchanged. -/
theorem save_fires_done_once (env : Env) (s : PhotoEditor Extra Brush) :
    (step env s Event.save).calls
        = s.calls ++ [Call.contentSave s.modifications, Call.doneFire s.modifications]
      ∧ (step env s Event.save).content.saved = s.content.saved ++ [s.modifications]
      ∧ (step env s Event.save).done = s.done ++ [s.modifications]
      ∧ (step env s Event.save).modifications = s.modifications
      ∧ (step env s Event.save).mode = s.mode := by
  simp [step, save, contentSave, doneFire]

/-! ## Mode -/

/-- C3: if an event changes the mode (Transform or Paint), then either the
editor was in Transform and the event is a paint-mode request, or it was in
Paint and the event is a done or a cancel request; a done or a cancel request
in Transform leaves the mode value (mode and action tag) as it was. -/
theorem mode_changes_only_on_edges (env : Env) (s : PhotoEditor Extra Brush) :
    (∀ e : Event Brush, (step env s e).mode.mode ≠ s.mode.mode →
        (s.mode.mode = Mode.Transform ∧ e = Event.paintMode)
          ∨ (s.mode.mode = Mode.Paint ∧ (e = Event.done ∨ e = Event.cancel)))
      ∧ (s.mode.mode = Mode.Transform →
          (step env s Event.done).mode = s.mode
            ∧ (step env s Event.cancel).mode = s.mode) := by
  constructor
  · intro e h
    cases e with
    | rotate angle => exact absurd rfl h
    | flip => exact absurd rfl h
    | paintMode =>
      left
      refine ⟨?_, rfl⟩
      simp only [step, paintModeHandler, assignMode_mode] at h
      cases hm : s.mode.mode with
      | Transform => rfl
      | Paint => exact absurd hm.symm h
    | done =>
      right
      refine ⟨?_, Or.inl rfl⟩
      cases hm : s.mode.mode with
      | Transform => simp [step, doneHandler, hm] at h
      | Paint => rfl
    | cancel =>
      right
      refine ⟨?_, Or.inr rfl⟩
      cases hm : s.mode.mode with
      | Transform => simp [step, cancelHandler, hm] at h
      | Paint => rfl
    | brush value => exact absurd rfl h
    | resize size => exact absurd (congrArg PhotoEditorMode.mode (sizeHandler_mode env size s)) h
    | save => exact absurd rfl h
  · intro h
    simp [step, doneHandler, cancelHandler, h]

/-- Witness for C3: the example editor is in Transform. -/
theorem mode_changes_only_on_edges_witness :
    exampleEditor.mode.mode = Mode.Transform
      ∧ (step exampleEnv exampleEditor Event.done).mode = exampleEditor.mode
      ∧ (step exampleEnv exampleEditor Event.cancel).mode = exampleEditor.mode
      ∧ (step exampleEnv exampleEditor Event.paintMode).mode.mode ≠ exampleEditor.mode.mode
      ∧ ((exampleEditor.mode.mode = Mode.Transform
            ∧ (Event.paintMode : Event Unit) = Event.paintMode)
          ∨ (exampleEditor.mode.mode = Mode.Paint
            ∧ ((Event.paintMode : Event Unit) = Event.done
              ∨ (Event.paintMode : Event Unit) = Event.cancel))) :=
  ⟨by decide,
    ((mode_changes_only_on_edges exampleEnv exampleEditor).2 (by decide)).1,
    ((mode_changes_only_on_edges exampleEnv exampleEditor).2 (by decide)).2,
    by decide,
    (mode_changes_only_on_edges exampleEnv exampleEditor).1 Event.paintMode (by decide)⟩

/-- C4: a paint-mode request sets the mode value to {Paint, None}; in Paint a
done request sets it to {Transform, Save} and a cancel request sets it to
{Transform, Discard}; none of the three requests changes the stored
modification set. -/
theorem mode_requests_set_mode (env : Env) (s : PhotoEditor Extra Brush) :
    (step env s Event.paintMode).mode = { mode := Mode.Paint, action := Action.None }
      ∧ (s.mode.mode = Mode.Paint →
          (step env s Event.done).mode = { mode := Mode.Transform, action := Action.Save }
            ∧ (step env s Event.cancel).mode
                = { mode := Mode.Transform, action := Action.Discard })
      ∧ (step env s Event.paintMode).modifications = s.modifications
      ∧ (step env s Event.done).modifications = s.modifications
      ∧ (step env s Event.cancel).modifications = s.modifications := by
  refine ⟨?_, ?_, ?_, ?_, ?_⟩
  · simp only [step, paintModeHandler, assignMode_mode]
  · intro h
    simp only [step, doneHandler, cancelHandler, h, if_true, assignMode_mode, and_self]
  · simp only [step, paintModeHandler, assignMode_modifications]
  · simp only [step, doneHandler]
    split
    · rw [assignMode_modifications]
    · rfl
  · simp only [step, cancelHandler]
    split
    · rw [assignMode_modifications]
    · rfl

/-- Witness for C4: the example editor after a paint-mode request is in
Paint; done and cancel then lead to {Transform, Save} and
{Transform, Discard}. -/
theorem mode_requests_set_mode_witness :
    (step exampleEnv exampleEditor Event.paintMode).mode.mode = Mode.Paint
      ∧ (step exampleEnv (step exampleEnv exampleEditor Event.paintMode) Event.done).mode
          = { mode := Mode.Transform, action := Action.Save }
      ∧ (step exampleEnv (step exampleEnv exampleEditor Event.paintMode) Event.cancel).mode
          = { mode := Mode.Transform, action := Action.Discard } :=
  ⟨by decide,
    (mode_requests_set_mode exampleEnv
      (step exampleEnv exampleEditor Event.paintMode)).2.1 (by decide)⟩

/-- C5: in every state reached from construction (the mode subscription is
delivered the initial mode value) by any finite sequence of events, the
colour picker is visible exactly when the mode is Paint; from such a state a
paint-mode request leaves it visible, and a done or a cancel request received
in Paint leaves it hidden. -/
theorem color_picker_visible_iff_paint (env : Env) (m : PhotoModifications Extra)
    (initialMode : PhotoEditorMode) (initialSize : Option QSize)
    (initialBrush : Option Brush) (events : List (Event Brush)) :
    (run env (construct env m initialMode initialSize initialBrush) events).colorPicker.visible
        = some (decide ((run env (construct env m initialMode initialSize initialBrush)
            events).mode.mode = Mode.Paint))
      ∧ ((run env (construct env m initialMode initialSize initialBrush)
            events).colorPicker.visible = some true
          ↔ (run env (construct env m initialMode initialSize initialBrush)
              events).mode.mode = Mode.Paint)
      ∧ (step env (run env (construct env m initialMode initialSize initialBrush) events)
          Event.paintMode).colorPicker.visible = some true
      ∧ ((run env (construct env m initialMode initialSize initialBrush)
            events).mode.mode = Mode.Paint →
          (step env (run env (construct env m initialMode initialSize initialBrush) events)
              Event.done).colorPicker.visible = some false
            ∧ (step env (run env (construct env m initialMode initialSize initialBrush) events)
              Event.cancel).colorPicker.visible = some false) := by
  have hs := run_pickerFollowsMode env events _
    (construct_pickerFollowsMode env m initialMode initialSize initialBrush)
  generalize run env (construct env m initialMode initialSize initialBrush) events = s at hs
  have hp := step_pickerFollowsMode env s Event.paintMode hs
  have hd := step_pickerFollowsMode env s Event.done hs
  have hc := step_pickerFollowsMode env s Event.cancel hs
  unfold pickerFollowsMode at hs hp hd hc
  refine ⟨hs, ?_, ?_, ?_⟩
  · rw [hs]
    simp
  · rw [hp]
    simp [step, paintModeHandler, assignMode_mode]
  · intro h
    rw [hd, hc]
    simp [step, doneHandler, cancelHandler, h, assignMode_mode]

/-- Witness for C5: the example editor after a paint-mode request is in Paint
with the colour picker visible; a done or a cancel request then hides it. -/
theorem color_picker_visible_iff_paint_witness :
    (run exampleEnv exampleEditor [Event.paintMode]).mode.mode = Mode.Paint
      ∧ (run exampleEnv exampleEditor [Event.paintMode]).colorPicker.visible = some true
      ∧ (step exampleEnv (run exampleEnv exampleEditor [Event.paintMode])
          Event.done).colorPicker.visible = some false
      ∧ (step exampleEnv (run exampleEnv exampleEditor [Event.paintMode])
          Event.cancel).colorPicker.visible = some false :=
  ⟨by decide, by decide,
    (color_picker_visible_iff_paint exampleEnv
      { angle := 0, flipped := false, extra := () }
      { mode := Mode.Transform, action := Action.None }
      (some { width := 800, height := 600 }) (some ())
      [Event.paintMode]).2.2.2 (by decide)⟩

/-! ## Resize -/

/-- C7: for a size of width `w > 0` and height `h > 0`, with `c` the controls
height and `t` the colour-picker top skip, the resize handler gives the
content canvas the rectangle at (0, 0) of width `w` and height `h - c`, gives
the controls bar the rectangle at (0, h - c) of width `w` and height `c`
(its bottom edge is the bottom edge of the widget rectangle and its top is
where the content rectangle ends), and moves the colour-picker line to
(w / 2, h - c + t), in this order. -/
theorem resize_splits_geometry (env : Env) (s : PhotoEditor Extra Brush) (w h : Int)
    (hw : 0 < w) (hh : 0 < h) :
    (step env s (Event.resize { width := w, height := h })).content.geometry
        = some (QRect.ofXYWH 0 0 w (h - env.photoEditorControlsHeight))
      ∧ (step env s (Event.resize { width := w, height := h })).controls.geometry
        = some (QRect.ofXYWH 0 (h - env.photoEditorControlsHeight) w
            env.photoEditorControlsHeight)
      ∧ (step env s (Event.resize { width := w, height := h })).colorPicker.line
        = some { x := w / 2,
                 y := h - env.photoEditorControlsHeight
                        + env.photoEditorColorPickerTopSkip }
      ∧ w / 2 = Int.tdiv w 2
      ∧ (QRect.ofXYWH 0 0 w (h - env.photoEditorControlsHeight)).x = 0
      ∧ (QRect.ofXYWH 0 0 w (h - env.photoEditorControlsHeight)).y = 0
      ∧ (QRect.ofXYWH 0 0 w (h - env.photoEditorControlsHeight)).width = w
      ∧ (QRect.ofXYWH 0 0 w (h - env.photoEditorControlsHeight)).height
          = h - env.photoEditorControlsHeight
      ∧ (QRect.ofXYWH 0 (h - env.photoEditorControlsHeight) w
          env.photoEditorControlsHeight).x = 0
      ∧ (QRect.ofXYWH 0 (h - env.photoEditorControlsHeight) w
          env.photoEditorControlsHeight).y = h - env.photoEditorControlsHeight
      ∧ (QRect.ofXYWH 0 (h - env.photoEditorControlsHeight) w
          env.photoEditorControlsHeight).width = w
      ∧ (QRect.ofXYWH 0 (h - env.photoEditorControlsHeight) w
          env.photoEditorControlsHeight).height = env.photoEditorControlsHeight
      ∧ (QRect.ofXYWH 0 (h - env.photoEditorControlsHeight) w
          env.photoEditorControlsHeight).bottom
          = (QRect.ofPointSize { x := 0, y := 0 } { width := w, height := h }).bottom
      ∧ (QRect.ofXYWH 0 (h - env.photoEditorControlsHeight) w
          env.photoEditorControlsHeight).y
          = (QRect.ofXYWH 0 0 w (h - env.photoEditorControlsHeight)).y
            + (QRect.ofXYWH 0 0 w (h - env.photoEditorControlsHeight)).height
      ∧ (step env s (Event.resize { width := w, height := h })).calls
        = s.calls ++
          [Call.contentSetGeometry (QRect.ofXYWH 0 0 w (h - env.photoEditorControlsHeight)),
            Call.controlsSetGeometry
              (QRect.ofXYWH 0 (h - env.photoEditorControlsHeight) w
                env.photoEditorControlsHeight),
            Call.colorPickerMoveLine
              { x := w / 2,
                y := h - env.photoEditorControlsHeight
                      + env.photoEditorColorPickerTopSkip }] := by
  have hne : QSize.isEmpty { width := w, height := h } = false := by
    simp only [QSize.isEmpty, Bool.or_eq_false_iff, decide_eq_false_iff_not]
    omega
  have hdiv : Int.tdiv w 2 = w / 2 := Int.tdiv_eq_ediv (by omega) (by omega)
  have hcontent :
      (QRect.ofPointSize { x := 0, y := 0 } { width := w, height := h }).subMargins
          { left := 0, top := 0, right := 0, bottom := env.photoEditorControlsHeight }
        = QRect.ofXYWH 0 0 w (h - env.photoEditorControlsHeight) := by
    simp only [QRect.subMargins, QRect.ofPointSize, QRect.ofXYWH, QRect.mk.injEq]
    omega
  have hheight : (QRect.ofXYWH 0 0 w (h - env.photoEditorControlsHeight)).height
      = h - env.photoEditorControlsHeight := by
    simp only [QRect.height, QRect.ofXYWH]
    omega
  have hcontrols :
      (QRect.ofPointSize { x := 0, y := 0 } { width := w, height := h }).subMargins
          { left := 0, top := h - env.photoEditorControlsHeight, right := 0, bottom := 0 }
        = QRect.ofXYWH 0 (h - env.photoEditorControlsHeight) w
            env.photoEditorControlsHeight := by
    simp only [QRect.subMargins, QRect.ofPointSize, QRect.ofXYWH, QRect.mk.injEq]
    omega
  have hwidth : (QRect.ofXYWH 0 (h - env.photoEditorControlsHeight) w
      env.photoEditorControlsHeight).width = w := by
    simp only [QRect.width, QRect.ofXYWH]
    omega
  have hx : (QRect.ofXYWH 0 (h - env.photoEditorControlsHeight) w
      env.photoEditorControlsHeight).x = 0 := rfl
  have hy : (QRect.ofXYWH 0 (h - env.photoEditorControlsHeight) w
      env.photoEditorControlsHeight).y = h - env.photoEditorControlsHeight := rfl
  have hstep : step env s (Event.resize { width := w, height := h })
      = colorPickerMoveLine
          { x := w / 2,
            y := h - env.photoEditorControlsHeight + env.photoEditorColorPickerTopSkip }
          (controlsSetGeometry
            (QRect.ofXYWH 0 (h - env.photoEditorControlsHeight) w
              env.photoEditorControlsHeight)
            (contentSetGeometry
              (QRect.ofXYWH 0 0 w (h - env.photoEditorControlsHeight)) s)) := by
    simp only [step, sizeHandler, hne, hcontent, hheight, hcontrols, hwidth, hx, hy, hdiv,
      Bool.false_eq_true, if_false, zero_add]
  rw [hstep]
  refine ⟨rfl, rfl, rfl, hdiv.symm, rfl, rfl, ?_, hheight, hx, hy, hwidth, ?_, ?_, ?_, ?_⟩
  · simp only [QRect.width, QRect.ofXYWH]
    omega
  · simp only [QRect.height, QRect.ofXYWH]
    omega
  · simp only [QRect.bottom, QRect.ofXYWH, QRect.ofPointSize]
    omega
  · simp only [QRect.y, QRect.height, QRect.ofXYWH]
    omega
  · simp [colorPickerMoveLine, controlsSetGeometry, contentSetGeometry]

/-- Witness for C7: the example editor resized to 1000 by 700, with controls
height 60 and top skip 20. -/
theorem resize_splits_geometry_witness :
    (0 : Int) < 1000 ∧ (0 : Int) < 700
      ∧ (step exampleEnv exampleEditor
          (Event.resize { width := 1000, height := 700 })).content.geometry
        = some (QRect.ofXYWH 0 0 1000 640)
      ∧ (step exampleEnv exampleEditor
          (Event.resize { width := 1000, height := 700 })).controls.geometry
        = some (QRect.ofXYWH 0 640 1000 60)
      ∧ (step exampleEnv exampleEditor
          (Event.resize { width := 1000, height := 700 })).colorPicker.line
        = some { x := 500, y := 660 } :=
  ⟨by decide, by decide,
    (resize_splits_geometry exampleEnv exampleEditor 1000 700 (by decide) (by decide)).1,
    (resize_splits_geometry exampleEnv exampleEditor 1000 700 (by decide) (by decide)).2.1,
    (resize_splits_geometry exampleEnv exampleEditor 1000 700 (by decide) (by decide)).2.2.1⟩

/-- C8: for a size that is empty (width `w ≤ 0` or height `h ≤ 0`) the resize
handler changes nothing: the whole editor state, and so the content-canvas
geometry, the controls-bar geometry and the colour-picker line position, are
the same after the event as before it, and no call is made. -/
theorem resize_empty_changes_nothing (env : Env) (s : PhotoEditor Extra Brush) (w h : Int)
    (hempty : w ≤ 0 ∨ h ≤ 0) :
    step env s (Event.resize { width := w, height := h }) = s
      ∧ (step env s (Event.resize { width := w, height := h })).content.geometry
          = s.content.geometry
      ∧ (step env s (Event.resize { width := w, height := h })).controls.geometry
          = s.controls.geometry
      ∧ (step env s (Event.resize { width := w, height := h })).colorPicker.line
          = s.colorPicker.line
      ∧ (step env s (Event.resize { width := w, height := h })).calls = s.calls := by
  have he : QSize.isEmpty { width := w, height := h } = true := by
    simp only [QSize.isEmpty, Bool.or_eq_true, decide_eq_true_eq]
    omega
  have hstep : step env s (Event.resize { width := w, height := h }) = s := by
    simp only [step, sizeHandler, he, if_true]
  rw [hstep]
  exact ⟨rfl, rfl, rfl, rfl, rfl⟩

/-- Witness for C8: the example editor (laid out for 800 by 600) resized to
0 by 600 keeps its layout. -/
theorem resize_empty_changes_nothing_witness :
    ((0 : Int) ≤ 0 ∨ (600 : Int) ≤ 0)
      ∧ step exampleEnv exampleEditor (Event.resize { width := 0, height := 600 })
          = exampleEditor
      ∧ (step exampleEnv exampleEditor
          (Event.resize { width := 0, height := 600 })).content.geometry
          = some (QRect.ofXYWH 0 0 800 540) :=
  ⟨by decide,
    (resize_empty_changes_nothing exampleEnv exampleEditor 0 600 (by decide)).1,
    by decide⟩

end Editor
